import Mathlib

/-!
Verification of the georeferencing transform solver of `app.py` (ifc-gref).

The definitions below are a shallow embedding of the arithmetic performed by
`app.py`: `infoExt` (reference-point and unit extraction), `unitmapper`
(length-unit table), `upload_file` (scale/unit conflict check), `survey_points`
(pair-count gate) and `calculate` (closed-form and least-squares strategies).
Machine floats are modelled as exact rationals or reals; Python's `round`
(banker's rounding, half to even) and `int` (truncation toward zero) are
modelled explicitly.
-/

namespace IfcGref

/-- Python 3 `round(q)`: nearest integer, ties to even (banker's rounding). -/
def pyround (q : ℚ) : ℤ :=
  if q - ⌊q⌋ < 1 / 2 then ⌊q⌋
  else if 1 / 2 < q - ⌊q⌋ then ⌊q⌋ + 1
  else if ⌊q⌋ % 2 = 0 then ⌊q⌋ else ⌊q⌋ + 1

/-- Python `int(q)`: truncation toward zero. -/
def pytrunc (q : ℚ) : ℤ :=
  if 0 ≤ q then ⌊q⌋ else ⌈q⌉

/-- `app.py` line 520: `rDeg = Rotation_degrees - (360*round(Rotation_degrees/360))`,
the degree normalization applied to the computed rotation angle
(`Rotation_degrees = (180/pi) * Rotation_solution`, line 519). -/
def rDeg (Rotation_degrees : ℚ) : ℚ :=
  Rotation_degrees - 360 * pyround (Rotation_degrees / 360)

/-- A correspondence pair as stored in `data_points` in `calculate`
(`app.py` line 486): model coordinates (X, Y, Z) and target-CRS coordinates
(X_prime, Y_prime, Z_prime). -/
structure DataPoint (α : Type) where
  X : α
  Y : α
  Z : α
  X_prime : α
  Y_prime : α
  Z_prime : α

/-- `app.py` lines 506-513: the initial guess `[S, Rotation, E, N, H]` handed to
`scipy.optimize.leastsq`.  With an anchor (`Refl`) it is
`[coeff, 0, xt, yt, zt]` (the anchor's target coordinates, unchanged); without
one it is `[coeff, 0, x'0 - x0*coeff, y'0 - y0*coeff, z'0 - z0*coeff]` from the
first supplied pair.  Note the seed scale is `coeff` itself, not `1/coeff`. -/
def initialGuess (coeff : ℚ) (anchor : Option (ℚ × ℚ × ℚ)) (p0 : DataPoint ℚ) :
    ℚ × ℚ × ℚ × ℚ × ℚ :=
  match anchor with
  | some (xt, yt, zt) => (coeff, 0, xt, yt, zt)
  | none =>
      (coeff, 0,
       p0.X_prime - p0.X * coeff,
       p0.Y_prime - p0.Y * coeff,
       p0.Z_prime - p0.Z * coeff)

/-- `app.py` lines 253-264 (`upload_file`): the scale/unit conflict advisory.
`coeff` is the computed unit coefficient from the session (`None` when unit
extraction failed, in which case the route returns before any check); `scale`
is `IfcMapConversion.Scale` as persisted in the model.  A conflict message is
emitted when `int(coeff) != 1 and Scale is None`, or when
`int(coeff) != 1 and int(Scale) == 1`. -/
def scaleConflict (coeff : Option ℚ) (scale : Option ℚ) : Bool :=
  match coeff with
  | none => false
  | some c =>
      match scale with
      | none => decide (pytrunc c ≠ 1)
      | some s => decide (pytrunc c ≠ 1) && decide (pytrunc s = 1)

/-- The conflict condition in the words of the spec (claim C3): declared scale
non-unity and computed unit coefficient non-unity.  Kept separate from
`scaleConflict`, which embeds the code, so the two can be compared. -/
def conflictClaimed (c s : ℚ) : Bool :=
  decide (c ≠ 1) && decide (s ≠ 1)

/-- `app.py` lines 195-224 (`unitmapper`): the unit dictionary, with each pint
quantity replaced by its meters-per-unit magnitude (`.to(ureg.meter).magnitude`,
as the callers in `infoExt` compute).  Keys are exactly the dictionary's keys:
all-uppercase and all-lowercase spellings only. -/
def unitTable : List (String × ℚ) :=
  [("METRE", 1), ("METER", 1),
   ("CENTIMETRE", 1 / 100), ("CENTIMETER", 1 / 100),
   ("MILLIMETRE", 1 / 1000), ("MILLIMETER", 1 / 1000),
   ("INCH", 254 / 10000), ("FOOT", 3048 / 10000),
   ("YARD", 9144 / 10000), ("MILE", 1609344 / 1000),
   ("NAUTICAL_MILE", 1852),
   ("metre", 1), ("meter", 1),
   ("centimeter", 1 / 100), ("centimetre", 1 / 100),
   ("millimeter", 1 / 1000), ("millimetre", 1 / 1000),
   ("inch", 254 / 10000), ("foot", 3048 / 10000),
   ("yard", 9144 / 10000), ("mile", 1609344 / 1000),
   ("nautical_mile", 1852)]

/-- The key set of `unitTable` (the Python dict membership test
`value in unit_mapping`). -/
def unitKeys : List String := unitTable.map Prod.fst

/-- `unitmapper(value)`: dictionary lookup; a name absent from the table falls
through to the bare `return`, i.e. yields `None`. -/
def unitmapper (value : String) : Option ℚ :=
  unitTable.lookup value

/-- A Python float value: finite, NaN, or a signed infinity. -/
inductive PyFloat where
  | finite (q : ℚ)
  | nan
  | inf
  | ninf
deriving DecidableEq

/-- Whether a Python float is finite. -/
def PyFloat.isFinite : PyFloat → Bool
  | .finite _ => true
  | _ => false

/-- A form field string as classified by Python's `float()` builtin: either a
string `float()` accepts — which includes `"nan"`, `"inf"`, `"-inf"`, carried
here with the value produced — or one raising `ValueError`. -/
inductive FormField where
  | numeric (v : PyFloat)
  | nonNumeric

/-- Python `float(field)`, `None` standing for the raised `ValueError`. -/
def parseFloat : FormField → Option PyFloat
  | .numeric v => some v
  | .nonNumeric => none

/-- Whether `float()` accepts the field. -/
def FormField.isNumeric : FormField → Bool
  | .numeric _ => true
  | .nonNumeric => false

/-- One row of the survey form: the six coordinate fields of a pair
(`app.py` lines 466-472). -/
structure FormRow where
  x : FormField
  y : FormField
  z : FormField
  x_prime : FormField
  y_prime : FormField
  z_prime : FormField

/-- `app.py` lines 474-486: the `try` block converting the six fields of one
row with `float(...)`; any `ValueError` aborts the request, otherwise the pair
joins `data_points`. -/
def parseRow (r : FormRow) : Option (DataPoint PyFloat) :=
  match parseFloat r.x, parseFloat r.y, parseFloat r.z,
        parseFloat r.x_prime, parseFloat r.y_prime, parseFloat r.z_prime with
  | some a, some b, some c, some d, some e, some f => some ⟨a, b, c, d, e, f⟩
  | _, _, _, _, _, _ => none

/-- `app.py` lines 466-486: the `for row in range(rows)` loop; the first
conversion failure returns the error page, otherwise all pairs are collected
(in order) for the least-squares fit. -/
def parseRows : List FormRow → Option (List (DataPoint PyFloat))
  | [] => some []
  | r :: rs =>
      match parseRow r with
      | none => none
      | some d =>
          match parseRows rs with
          | none => none
          | some ds => some (d :: ds)

/-- All six fields of the row are accepted by `float()`. -/
def FormRow.wellFormed (r : FormRow) : Bool :=
  r.x.isNumeric && r.y.isNumeric && r.z.isNumeric &&
  r.x_prime.isNumeric && r.y_prime.isNumeric && r.z_prime.isNumeric

/-- All six coordinates of a parsed pair are finite. -/
def DataPoint.allFinite (d : DataPoint PyFloat) : Bool :=
  d.X.isFinite && d.Y.isFinite && d.Z.isFinite &&
  d.X_prime.isFinite && d.Y_prime.isFinite && d.Z_prime.isFinite

/-- The tuple returned by `scipy.optimize.leastsq(..., full_output=True)`, as
far as `calculate` looks at it: the solution vector `result[0]` and the integer
status flag `ier` (`result[4]`; values 1-4 mean a solution was found, any other
value means the routine did not converge).  The covariance matrix, info dict
and message are omitted because the code never reads them either. -/
structure LeastsqReturn where
  sol : ℚ × ℚ × ℚ × ℚ × ℚ
  ier : ℤ

/-- What `calculate` produces from the least-squares call: the transform
parameters plus any warning surfaced to the caller. -/
structure SolveOutcome where
  params : ℚ × ℚ × ℚ × ℚ × ℚ
  warning : Option String

/-- `app.py` line 517: `S_solution, ... = result[0]` — the solution vector is
unpacked unconditionally; `ier` is never inspected and nothing else of the
result is used, so no warning is ever attached. -/
def consumeLeastsq (r : LeastsqReturn) : SolveOutcome :=
  { params := r.sol, warning := none }

/-- `app.py` lines 75-76 (`infoExt`): a latitude or longitude given as
(degrees, minutes, seconds, millionths-of-a-second) converted to decimal
degrees: `d + m/60 + (s + f/1000000)/(60*60)`. -/
def dmsToDeg (d m s f : ℚ) : ℚ :=
  d + m / 60 + (s + f / 1000000) / (60 * 60)

/-- `app.py` lines 71-94: the geodetic reference is converted (and `Refl` set,
enabling the anchor pair) only when both `RefLatitude` and `RefLongitude` are
present; the resulting pair of decimal degrees feeds the
geodetic-to-projected `Transformer` call. -/
def refAnchorDeg (rlat rlon : Option (ℚ × ℚ × ℚ × ℚ)) : Option (ℚ × ℚ) :=
  match rlat, rlon with
  | some (d1, m1, s1, f1), some (d2, m2, s2, f2) =>
      some (dmsToDeg d1 m1 s1 f1, dmsToDeg d2 m2 s2 f2)
  | _, _ => none

/-- `app.py` lines 344-374 (`survey_points`): whether a requested pair count
`Num` passes the gate and the flow proceeds (toward `calculate`).  With an
anchor (`Refl`) the check is `if Num < 0: error`; without one it is
`if Num <= 0: error`, so zero pairs are rejected and `calculate` is never
reached. -/
def surveyAccept (Refl : Bool) (Num : ℤ) : Bool :=
  if Refl then !(decide (Num < 0)) else !(decide (Num ≤ 0))

/-- Python's `math.atan2(y, x)`: the argument of the complex number `x + y*i`,
in `(-pi, pi]`. -/
noncomputable def atan2 (y x : ℝ) : ℝ := Complex.arg ⟨x, y⟩

/-- `pyround` over the reals (Python `round` on a float value). -/
noncomputable def pyroundR (x : ℝ) : ℤ :=
  if x - ⌊x⌋ < 1 / 2 then ⌊x⌋
  else if 1 / 2 < x - ⌊x⌋ then ⌊x⌋ + 1
  else if ⌊x⌋ % 2 = 0 then ⌊x⌋ else ⌊x⌋ + 1

/-- Python `round(x, 6)`: rounding to six decimal places, applied by
`calculate` to the declared true-north components (`app.py` lines 434, 455). -/
noncomputable def round6 (x : ℝ) : ℝ := (pyroundR (x * 1000000) : ℝ) / 1000000

/-- The declared true-north direction: the two `DirectionRatios` of the
`IfcDirection` held by the geometric representation context, in order —
`abscissa` is `ro[0][0]` (the x component), `ordinate` is `ro[0][1]`
(the y component). -/
structure TrueNorth where
  abscissa : ℝ
  ordinate : ℝ

/-- `app.py` lines 432-437 (and identically 453-458): the rotation used by the
closed-form strategies.  The code binds `xord, xabs = round(ro[0][0],6),
round(ro[0][1],6)` — so, despite the variable names, the FIRST direction ratio
(the abscissa) becomes the first argument of `atan2` — and falls back to
`xord, xabs = 0, 1` when no `IfcDirection` is declared. -/
noncomputable def rotationFromTN (tn : Option TrueNorth) : ℝ :=
  match tn with
  | some t => atan2 (round6 t.abscissa) (round6 t.ordinate)
  | none => atan2 0 1

/-- The five similarity-transform parameters produced by `calculate`. -/
structure TransformResult where
  S : ℝ
  Rotation : ℝ
  E : ℝ
  N : ℝ
  H : ℝ

/-- `app.py` lines 428-445 (single explicit pair, no anchor) and 449-464
(anchor pair only) — both branches compute the same closed form on the one
available pair `p`:
`S = 1.0/coeff`, `Rotation = atan2` of the true-north components, then
`E = X' - (A*X*S) + (B*Y*S)`, `N = Y' - (B*X*S) - (A*Y*S)`,
`H = Z' - Z*S` with `A = cos Rotation`, `B = sin Rotation`. -/
noncomputable def closedFormSolve (coeff : ℝ) (tn : Option TrueNorth)
    (p : DataPoint ℝ) : TransformResult :=
  let S := 1 / coeff
  let Rotation := rotationFromTN tn
  let A := Real.cos Rotation
  let B := Real.sin Rotation
  { S := S
    Rotation := Rotation
    E := p.X_prime - A * p.X * S + B * p.Y * S
    N := p.Y_prime - B * p.X * S - A * p.Y * S
    H := p.Z_prime - p.Z * S }

/-- `app.py` lines 500-502 (`equations`): first residual
`eq1 = S*cos(Rotation)*X - S*sin(Rotation)*Y + E - X_prime`. -/
noncomputable def eq1 (S Rotation E : ℝ) (d : DataPoint ℝ) : ℝ :=
  S * Real.cos Rotation * d.X - S * Real.sin Rotation * d.Y + E - d.X_prime

/-- `equations`: second residual
`eq2 = S*sin(Rotation)*X + S*cos(Rotation)*Y + N - Y_prime`. -/
noncomputable def eq2 (S Rotation N : ℝ) (d : DataPoint ℝ) : ℝ :=
  S * Real.sin Rotation * d.X + S * Real.cos Rotation * d.Y + N - d.Y_prime

/-- `equations`: third residual `eq3 = S*Z + H - Z_prime`. -/
noncomputable def eq3 (S H : ℝ) (d : DataPoint ℝ) : ℝ :=
  S * d.Z + H - d.Z_prime

/-! ## Helper lemmas -/

/-- `pyround q` is within 1/2 of `q`. -/
theorem pyround_bounds (q : ℚ) :
    q - 1 / 2 ≤ (pyround q : ℚ) ∧ (pyround q : ℚ) ≤ q + 1 / 2 := by
  have hf : ((⌊q⌋ : ℤ) : ℚ) ≤ q := Int.floor_le q
  have hf1 : q < ((⌊q⌋ : ℤ) : ℚ) + 1 := Int.lt_floor_add_one q
  unfold pyround
  split_ifs with h1 h2 h3 <;> constructor <;> push_cast <;> linarith

/-- `pyroundR` fixes integers. -/
theorem pyroundR_intCast (n : ℤ) : pyroundR (n : ℝ) = n := by
  simp [pyroundR, Int.floor_intCast]

/-- Rounding 1 to six decimals gives 1. -/
theorem round6_one : round6 (1 : ℝ) = 1 := by
  rw [round6]
  have h : ((1 : ℝ) * 1000000) = ((1000000 : ℤ) : ℝ) := by norm_num
  rw [h, pyroundR_intCast]
  norm_num

/-- Rounding 0 to six decimals gives 0. -/
theorem round6_zero : round6 (0 : ℝ) = 0 := by
  rw [round6]
  have h : ((0 : ℝ) * 1000000) = ((0 : ℤ) : ℝ) := by norm_num
  rw [h, pyroundR_intCast]
  norm_num

/-- `atan2 0 1 = 0`: a true-north vector along +Y gives zero rotation. -/
theorem atan2_zero_one : atan2 0 1 = 0 := by
  rw [atan2]
  have h : (⟨1, 0⟩ : ℂ) = 1 := by
    apply Complex.ext <;> simp
  rw [h, Complex.arg_one]

/-- `atan2 1 0 = pi/2`. -/
theorem atan2_one_zero : atan2 1 0 = Real.pi / 2 := by
  rw [atan2]
  have h : (⟨0, 1⟩ : ℂ) = Complex.I := rfl
  rw [h, Complex.arg_I]

/-- A key absent from an association list is not found by `lookup`. -/
theorem lookup_eq_none_of_forall {l : List (String × ℚ)} {s : String}
    (h : ∀ p ∈ l, p.1 ≠ s) : l.lookup s = none := by
  induction l with
  | nil => rfl
  | cons a t ih =>
      have ha := h a (List.mem_cons_self a t)
      have hb : (s == a.1) = false := by
        simp only [beq_eq_false_iff_ne]
        exact fun he => ha he.symm
      obtain ⟨k, v⟩ := a
      simp only [List.lookup, hb]
      exact ih fun p hp => h p (List.mem_cons_of_mem _ hp)

/-- A row parses iff all six of its fields are accepted by `float()`. -/
theorem parseRow_isSome (r : FormRow) : (parseRow r).isSome = r.wellFormed := by
  obtain ⟨x, y, z, xp, yp, zp⟩ := r
  cases x <;> cases y <;> cases z <;> cases xp <;> cases yp <;> cases zp <;>
    simp [parseRow, parseFloat, FormRow.wellFormed, FormField.isNumeric]

/-! ## Claims -/

/-- C1: in the anchor-only and single-pair closed-form strategies the scale is
`S = 1/coefficient`, the translation is `E = X' - S*cos(Rotation)*X +
S*sin(Rotation)*Y`, `N = Y' - S*sin(Rotation)*X - S*cos(Rotation)*Y`,
`H = Z' - S*Z`, and consequently all three residuals of the produced transform
at that pair are exactly zero. -/
theorem c1_closed_form_exact (coeff : ℝ) (tn : Option TrueNorth) (p : DataPoint ℝ) :
    (closedFormSolve coeff tn p).S = 1 / coeff
    ∧ (closedFormSolve coeff tn p).E
        = p.X_prime
          - (closedFormSolve coeff tn p).S * Real.cos (closedFormSolve coeff tn p).Rotation * p.X
          + (closedFormSolve coeff tn p).S * Real.sin (closedFormSolve coeff tn p).Rotation * p.Y
    ∧ (closedFormSolve coeff tn p).N
        = p.Y_prime
          - (closedFormSolve coeff tn p).S * Real.sin (closedFormSolve coeff tn p).Rotation * p.X
          - (closedFormSolve coeff tn p).S * Real.cos (closedFormSolve coeff tn p).Rotation * p.Y
    ∧ (closedFormSolve coeff tn p).H = p.Z_prime - (closedFormSolve coeff tn p).S * p.Z
    ∧ eq1 (closedFormSolve coeff tn p).S (closedFormSolve coeff tn p).Rotation
        (closedFormSolve coeff tn p).E p = 0
    ∧ eq2 (closedFormSolve coeff tn p).S (closedFormSolve coeff tn p).Rotation
        (closedFormSolve coeff tn p).N p = 0
    ∧ eq3 (closedFormSolve coeff tn p).S (closedFormSolve coeff tn p).H p = 0 := by
  simp only [closedFormSolve, eq1, eq2, eq3]
  refine ⟨by trivial, by ring, by ring, by ring, by ring, by ring, by ring⟩

/-- C2 counterexample: for the declared true-north vector (abscissa, ordinate)
= (1, 0) — true north along the model +X axis — the code computes
`atan2(ro[0][0], ro[0][1]) = atan2(1, 0) = pi/2`, not the claimed
`atan2(ordinate, abscissa) = atan2(0, 1) = 0`. -/
theorem c2_rotation_counterexample :
    rotationFromTN (some ⟨1, 0⟩) ≠ atan2 0 1 := by
  have h1 : rotationFromTN (some ⟨1, 0⟩) = Real.pi / 2 := by
    show atan2 (round6 1) (round6 0) = Real.pi / 2
    rw [round6_one, round6_zero, atan2_one_zero]
  rw [h1, atan2_zero_one]
  have := Real.pi_pos
  intro h
  linarith

/-- C2 amended: the rotation is `atan2` of the FIRST component of the declared
true-north vector (the abscissa) over the SECOND (the ordinate), each rounded
to six decimals — `theta = atan2(abscissa, ordinate)` — and when no vector is
declared the default `(0, 1)` yields zero rotation. -/
theorem c2_rotation_amended :
    rotationFromTN none = 0
    ∧ ∀ a o : ℝ, rotationFromTN (some ⟨a, o⟩) = atan2 (round6 a) (round6 o) := by
  constructor
  · show atan2 0 1 = 0
    exact atan2_zero_one
  · intro a o
    rfl

/-- C3 counterexample: for computed unit coefficient 1/1000 (a millimetre
model against a metre CRS) and persisted scale exactly 1, `upload_file` emits
the conflict message (`int(1/1000) = 0 != 1` and `int(1) == 1`), although the
claim — conflict only when the declared scale is ALSO non-unity — demands no
conflict here. -/
theorem c3_conflict_counterexample :
    scaleConflict (some (1 / 1000)) (some 1) = true
    ∧ conflictClaimed (1 / 1000) 1 = false := by
  constructor
  · show (decide (pytrunc (1 / 1000) ≠ 1) && decide (pytrunc 1 = 1)) = true
    have h1 : pytrunc (1 / 1000) = 0 := by rw [pytrunc]; norm_num
    have h2 : pytrunc 1 = 1 := by rw [pytrunc]; norm_num
    rw [h1, h2]
    rfl
  · simp [conflictClaimed]

/-- C3 amended: for a model with a declared persisted scale, the conflict
advisory is produced exactly when the truncated computed coefficient
`int(coeff)` differs from 1 AND the truncated declared scale `int(Scale)`
EQUALS 1; a non-unity truncated declared scale never triggers the advisory. -/
theorem c3_conflict_amended (c s : ℚ) :
    scaleConflict (some c) (some s) = true ↔ pytrunc c ≠ 1 ∧ pytrunc s = 1 := by
  simp [scaleConflict]

/-- C4 counterexample: with no anchor and computed coefficient 1/1000, the seed
scale handed to `leastsq` is `coeff = 1/1000` itself, not the claimed
`1/coefficient = 1000`. -/
theorem c4_seed_counterexample :
    (initialGuess (1 / 1000) none ⟨1, 2, 3, 10, 20, 30⟩).1 = 1 / 1000
    ∧ (1 : ℚ) / 1000 ≠ 1 / ((1 : ℚ) / 1000) := by
  constructor
  · rfl
  · norm_num

/-- C4 amended: the least-squares seed is `[coeff, 0, xt, yt, zt]` — scale
`coeff` itself (not its reciprocal), zero rotation, and the anchor's raw
target coordinates — when an anchor exists, and otherwise `[coeff, 0,
X'0 - X0*coeff, Y'0 - Y0*coeff, Z'0 - Z0*coeff]` from the first supplied
pair; in neither case is the closed-form estimate or `1/coefficient` used. -/
theorem c4_seed_amended (coeff xt yt zt : ℚ) (p : DataPoint ℚ) :
    initialGuess coeff (some (xt, yt, zt)) p = (coeff, 0, xt, yt, zt)
    ∧ initialGuess coeff none p
      = (coeff, 0, p.X_prime - p.X * coeff, p.Y_prime - p.Y * coeff,
         p.Z_prime - p.Z * coeff) :=
  ⟨rfl, rfl⟩

/-- C5 counterexample: the angle -180 degrees is left at -180 by the
normalization (`round(-0.5) = 0` under Python's banker's rounding), and -180
lies outside the claimed half-open interval (-180, 180]. -/
theorem c5_norm_counterexample :
    rDeg (-180) = -180 ∧ ¬(-180 < rDeg (-180)) := by
  have h : rDeg (-180) = -180 := by rw [rDeg, pyround]; norm_num
  exact ⟨h, by rw [h]; norm_num⟩

/-- C5 amended: the normalized angle always lies in the CLOSED interval
[-180, 180] (both endpoints are reachable: -180 maps to -180); the concrete
instances hold: 370 normalizes to 10 and -200 to 160. -/
theorem c5_norm_amended :
    (∀ d : ℚ, -180 ≤ rDeg d ∧ rDeg d ≤ 180)
    ∧ rDeg 370 = 10 ∧ rDeg (-200) = 160 := by
  refine ⟨fun d => ?_, by rw [rDeg, pyround]; norm_num, by rw [rDeg, pyround]; norm_num⟩
  have h := pyround_bounds (d / 360)
  unfold rDeg
  constructor <;> nlinarith [h.1, h.2]

/-- C6 counterexample: the dictionary lookup is case-SENSITIVE — the
mixed-case name "Metre" is absent and the lookup fails (returns `None`),
while the all-uppercase spelling "METRE" succeeds. -/
theorem c6_case_counterexample :
    unitmapper "Metre" = none ∧ unitmapper "METRE" = some 1 :=
  ⟨rfl, rfl⟩

/-- C6 amended: every name OUTSIDE the table's key set fails (yields `None`);
every key of the table (the all-uppercase and all-lowercase spellings of
metre, centimetre, millimetre, inch, foot, yard, mile and nautical_mile, in
both the "er" and "re" spellings) succeeds; and for each unit the uppercase and lowercase
spellings resolve to the same meters-per-unit factor.  Mixed-case names are
not keys, so case-insensitivity fails (see the counterexample). -/
theorem c6_unit_amended :
    (∀ s : String, s ∉ unitKeys → unitmapper s = none)
    ∧ (unitKeys.all fun k => (unitmapper k).isSome) = true
    ∧ unitmapper "METRE" = unitmapper "metre"
    ∧ unitmapper "CENTIMETRE" = unitmapper "centimetre"
    ∧ unitmapper "MILLIMETRE" = unitmapper "millimetre"
    ∧ unitmapper "INCH" = unitmapper "inch"
    ∧ unitmapper "FOOT" = unitmapper "foot"
    ∧ unitmapper "YARD" = unitmapper "yard"
    ∧ unitmapper "MILE" = unitmapper "mile"
    ∧ unitmapper "NAUTICAL_MILE" = unitmapper "nautical_mile" := by
  refine ⟨fun s hs => ?_, rfl, rfl, rfl, rfl, rfl, rfl, rfl, rfl, rfl⟩
  apply lookup_eq_none_of_forall
  intro p hp he
  exact hs (he ▸ List.mem_map_of_mem Prod.fst hp)

/-- C6 witness: the name "FURLONG" is outside the key set and the lookup on it
fails. -/
theorem c6_unit_amended_witness :
    "FURLONG" ∉ unitKeys ∧ unitmapper "FURLONG" = none :=
  ⟨by decide, c6_unit_amended.1 "FURLONG" (by decide)⟩

/-- C7: with no anchor (`Refl` false) a request for zero correspondence pairs
is rejected by the survey gate (`if Num <= 0: error`) and the flow never
reaches `calculate`, so no transform is produced; with an anchor, zero pairs
are accepted (the anchor-only strategy runs). -/
theorem c7_insufficient_data :
    surveyAccept false 0 = false ∧ surveyAccept true 0 = true := by
  constructor <;> rfl

/-- C8 counterexample: a row whose X field is the string "nan" — which
Python's `float()` parses to a non-finite value — is ACCEPTED by the
conversion loop and enters `data_points` for fitting, although the claim
demands rejection of any pair holding a non-finite coordinate. -/
theorem c8_nonfinite_counterexample :
    parseRows [⟨.numeric .nan, .numeric (.finite 0), .numeric (.finite 0),
                .numeric (.finite 0), .numeric (.finite 0), .numeric (.finite 0)⟩]
      = some [⟨.nan, .finite 0, .finite 0, .finite 0, .finite 0, .finite 0⟩]
    ∧ DataPoint.allFinite ⟨.nan, .finite 0, .finite 0, .finite 0, .finite 0, .finite 0⟩
      = false :=
  ⟨rfl, rfl⟩

/-- C8 amended: the conversion loop rejects a row exactly when some field
fails Python's `float()` parse (is non-numeric); there is no finiteness check,
so NaN and infinite coordinates pass through to the fit. -/
theorem c8_parse_amended (rs : List FormRow) :
    (parseRows rs).isSome = rs.all FormRow.wellFormed := by
  induction rs with
  | nil => rfl
  | cons r t ih =>
      rw [List.all_cons, ← parseRow_isSome r, ← ih]
      cases h : parseRow r with
      | none => simp [parseRows, h]
      | some d =>
          cases h2 : parseRows t with
          | none => simp [parseRows, h, h2]
          | some ds => simp [parseRows, h, h2]

/-- C9 counterexample: with status flag `ier = 5` (scipy's leastsq signals
non-convergence by any value outside 1..4) the outcome is byte-for-byte the
one produced for the converged status `ier = 1`, and its warning slot is
empty — no convergence-failed flag is attached, contrary to the claim. -/
theorem c9_warning_counterexample :
    consumeLeastsq ⟨(2, 0, 100, 50, 10), 5⟩ = consumeLeastsq ⟨(2, 0, 100, 50, 10), 1⟩
    ∧ (consumeLeastsq ⟨(2, 0, 100, 50, 10), 5⟩).warning = none :=
  ⟨rfl, rfl⟩

/-- C9 amended: when the least-squares routine fails to converge the call does
not abort — the iterate in `result[0]` is unpacked and used as the transform
unconditionally — but NO convergence flag or warning is attached: the status
flag is never inspected and the outcome is independent of it. -/
theorem c9_no_warning_amended (sol : ℚ × ℚ × ℚ × ℚ × ℚ) (ier ier2 : ℤ) :
    consumeLeastsq ⟨sol, ier⟩ = consumeLeastsq ⟨sol, ier2⟩
    ∧ (consumeLeastsq ⟨sol, ier⟩).params = sol
    ∧ (consumeLeastsq ⟨sol, ier⟩).warning = none :=
  ⟨rfl, rfl, rfl⟩

/-- C10: each latitude/longitude component quadruple (degrees, minutes,
seconds, millionths-of-a-second) is converted to decimal degrees as
`deg + min/60 + (sec + millionths/10^6)/3600`, and the anchor values are
produced exactly when both latitude and longitude are present. -/
theorem c10_dms_anchor :
    (∀ d m s f : ℚ, dmsToDeg d m s f = d + m / 60 + (s + f / 10 ^ 6) / 3600)
    ∧ ∀ rlat rlon : Option (ℚ × ℚ × ℚ × ℚ),
        (refAnchorDeg rlat rlon).isSome ↔ rlat.isSome ∧ rlon.isSome := by
  constructor
  · intro d m s f
    rw [dmsToDeg]
    norm_num
  · intro rlat rlon
    cases rlat with
    | none => simp [refAnchorDeg]
    | some a =>
        obtain ⟨d1, m1, s1, f1⟩ := a
        cases rlon with
        | none => simp [refAnchorDeg]
        | some b =>
            obtain ⟨d2, m2, s2, f2⟩ := b
            simp [refAnchorDeg]

end IfcGref
